import Mathlib

/-!
Verification development for three metagenomics command-line wrapper scripts:
an assembly wrapper (assembleReads_by_metaspades.py), an index-build wrapper
(index_MGassembly_by_bowtie.py) and a read-mapping wrapper
(mapReads_MGassembly_by_bowtie.py).  Each script validates its arguments,
constructs an argument vector for an external binary, executes it and
forwards the exit status.  The embedding below models each function as a
pure Lean function from its arguments (plus the result of the single
external-process invocation, when the function performs one) to an outcome:
the ordered list of observable effects (log lines, directory creation,
process launches) together with how the function ends (normal return,
process exit via sys.exit, or an uncaught Python exception).
-/

/-- Characters treated as whitespace by the Python str.strip() call
(ASCII fragment, which covers the inputs handled by these scripts). -/
def isPySpace (c : Char) : Bool :=
  c = ' ' || c = '\t' || c = '\n' || c = '\r' || c = '\x0b' || c = '\x0c'

/-- Python str.strip(): drop leading and trailing whitespace. -/
def pyStrip (s : String) : String :=
  (((s.data.dropWhile isPySpace).reverse.dropWhile isPySpace).reverse).asString

/-- Numeric value of a decimal digit character. -/
def digitVal (c : Char) : Nat := c.toNat - 48

/-- Remaining digits of a Python integer literal: digits optionally separated
by single underscores, as accepted by int().  Returns none on a malformed
tail (a trailing underscore, a doubled underscore, or a non-digit). -/
def pyDigitsAux : List Char → Nat → Option Nat
  | [], acc => some acc
  | '_' :: c :: rest, acc =>
      if c.isDigit then pyDigitsAux rest (acc * 10 + digitVal c) else none
  | ['_'], _ => none
  | c :: rest, acc =>
      if c.isDigit then pyDigitsAux rest (acc * 10 + digitVal c) else none

/-- Digit sequence of a Python integer literal (at least one digit,
underscores allowed between digits). -/
def pyParseDigits : List Char → Option Nat
  | [] => none
  | c :: rest => if c.isDigit then pyDigitsAux rest (digitVal c) else none

/-- Model of the Python built-in int() applied to a string: strip
whitespace, then an optional sign followed by decimal digits with optional
single underscores between digits; none models a ValueError. -/
def pyInt (s : String) : Option Int :=
  match (pyStrip s).data with
  | '+' :: rest => (pyParseDigits rest).map (fun n => (n : Int))
  | '-' :: rest => (pyParseDigits rest).map (fun n => -(n : Int))
  | rest => (pyParseDigits rest).map (fun n => (n : Int))

/-- Whether a path string starts with the POSIX separator (written over the
character data so that it evaluates inside the kernel). -/
def startsWithSep (s : String) : Bool :=
  match s.data with
  | '/' :: _ => true
  | _ => false

/-- Whether a path string ends with the POSIX separator. -/
def endsWithSep (s : String) : Bool :=
  match s.data.getLast? with
  | some '/' => true
  | _ => false

/-- Model of os.path.join on two components (POSIX semantics): if the
second component is absolute it replaces the first; otherwise a separator
is inserted unless the first component is empty or already ends in one. -/
def osPathJoin (a b : String) : String :=
  if startsWithSep b then b
  else if a = "" || endsWithSep a then a ++ b
  else a ++ "/" ++ b

/-- Observable side effects performed by a wrapper function, in order:
a logger message, an os.makedirs call, the launch of an external process
(subprocess.run reaching the child), and the log line that prints a failing
command list after a CalledProcessError. -/
inductive Effect where
  | log (msg : String)
  | makedirs (dir : String)
  | exec (cmd : List String)
  | logCmd (cmd : List String)
deriving Repr, DecidableEq

/-- How a wrapper function ends: a normal return, a sys.exit with the given
code, or an uncaught Python exception with the given message.  Each carries
the effects performed before that point. -/
inductive Outcome where
  | normal (effects : List Effect)
  | exited (effects : List Effect) (code : Int)
  | raised (effects : List Effect) (msg : String)
deriving Repr, DecidableEq

/-- The effects performed by an outcome, however the function ended. -/
def outcomeEffects : Outcome → List Effect
  | .normal effs => effs
  | .exited effs _ => effs
  | .raised effs _ => effs

/-- Whether an effect is the launch of an external process. -/
def effectIsExec : Effect → Bool
  | .exec _ => true
  | _ => false

/-- An outcome launches no external process. -/
def launchesNoProcess (o : Outcome) : Bool :=
  (outcomeEffects o).all (fun e => !(effectIsExec e))

/-- Result of the one subprocess.run call a wrapper performs: the child ran
and exited 0; the child ran and exited with the given nonzero code
(CalledProcessError, since check=True); the executable was absent from the
PATH (FileNotFoundError, no child launched); or some other exception with
the given message. -/
inductive ExecResult where
  | success
  | failure (returncode : Int)
  | notFound
  | otherError (msg : String)
deriving Repr, DecidableEq

/-- Message logged by the generic except-Exception handler, identical in
all three scripts. -/
def unexpectedErrorMsg (e : String) : String :=
  "An unexpected error occurred: " ++ e

/-- Shared shape of the try/except block around subprocess.run in the three
scripts (they differ only in the message texts): on success log and return;
on CalledProcessError log the code and the command and exit with the
returncode; on FileNotFoundError log the tool-specific hint and exit 1; on
any other exception log it generically and exit 1. -/
def finishExec (pre : List Effect) (cmd : List String)
    (successMsg : String) (failMsg : Int → String) (notFoundMsg : String)
    (res : ExecResult) : Outcome :=
  match res with
  | .success => .normal (pre ++ [.exec cmd, .log successMsg])
  | .failure rc => .exited (pre ++ [.exec cmd, .log (failMsg rc), .logCmd cmd]) rc
  | .notFound => .exited (pre ++ [.log notFoundMsg]) 1
  | .otherError e => .exited (pre ++ [.log (unexpectedErrorMsg e)]) 1

/-! ### Assembly wrapper: assembleReads_by_metaspades.py -/

/-- Failure record of the k-mer validator: the raw offending token as it
appears in the log line, and the sys.exit code (always 1). -/
structure KmerFailure where
  offending : String
  exitCode : Int
deriving Repr, DecidableEq

/-- Loop body of validate_kmers over the comma-split token list: parse each
token with int(k.strip()); reject a parse failure, a value above 150, or an
even value; collect the parsed values otherwise.  An error models the
logger.error plus sys.exit(1) at the first bad token. -/
def validateKmerList : List String → Except KmerFailure (List Int)
  | [] => .ok []
  | k :: rest =>
    match pyInt k with
    | none => .error ⟨k, 1⟩
    | some kInt =>
      if ¬ (kInt ≤ 150) then .error ⟨k, 1⟩
      else if kInt % 2 = 0 then .error ⟨k, 1⟩
      else
        match validateKmerList rest with
        | .ok l => .ok (kInt :: l)
        | .error f => .error f

/-- Comma splitter at the character level (structurally recursive so that
it evaluates inside the kernel), accumulating the current token reversed. -/
def splitCommaAux : List Char → List Char → List String
  | [], acc => [acc.reverse.asString]
  | ',' :: rest, acc => acc.reverse.asString :: splitCommaAux rest []
  | c :: rest, acc => splitCommaAux rest (c :: acc)

/-- Model of the Python str.split(",") call: split on every comma, keeping
empty tokens, so the empty string yields one empty token. -/
def pySplitComma (s : String) : List String := splitCommaAux s.data []

/-- validate_kmers: an empty (or absent) k-mer string is passed through
unchanged; otherwise the string is split on commas, each token validated,
and the str() images of the parsed values joined back with commas. -/
def validate_kmers (kmer_str : String) : Except KmerFailure String :=
  if kmer_str = "" then .ok ""
  else
    match validateKmerList (pySplitComma kmer_str) with
    | .ok ks => .ok (String.intercalate "," (ks.map toString))
    | .error f => .error f

/-- A token the k-mer validator accepts: it parses as an integer that is at
most 150 and odd.  There is no lower bound on the value. -/
def kmerTokOk (t : String) : Bool :=
  match pyInt t with
  | none => false
  | some k => decide (k ≤ 150) && (k % 2 != 0)

def spadesPairedErrMsg : String := "Error: Paired-end R1 and R2 reads are mandatory."

def spadesLenErrMsg : String := "Error: Number of R1 files must match the number of R2 files."

def spadesOutErrMsg : String := "Error: Output directory is mandatory."

def spadesAsmErrMsg : String := "Error: Assembly name is mandatory."

def spadesThreadsErrMsg : String := "Error: Number of threads is mandatory."

/-- Log line of the k-mer validator at a bad token (the source formats the
raw token into the message; the model records the fixed head of the line
together with the raw token). -/
def kmerErrLogMsg (tok : String) : String := "Invalid k-mer value " ++ tok

def usingKmersMsg (k : String) : String := "Using k-mers: " ++ k

def spadesOutMsg (d : String) : String := "SPAdes output will be written to: " ++ d

def memLimitMsg (m : Int) : String :=
  "Setting SPAdes memory limit to " ++ toString m ++ " GB."

def spadesExecMsg (cmd : List String) : String :=
  "Executing SPAdes command: " ++ String.intercalate " " cmd

def spadesSuccessMsg : String := "SPAdes execution completed successfully."

def spadesFailMsg (rc : Int) : String :=
  "SPAdes command failed with exit code " ++ toString rc

def spadesNotFoundMsg : String :=
  "Error: spades.py command not found. Ensure SPAdes is installed and in your PATH within the container."

/-- Flags for the paired-read files at position i of the zipped R1/R2
list: the first pair uses -1 and -2, pair i for i above zero uses
--pe(i)-1 and --pe(i)-2. -/
def peFlags (i : Nat) (r1 r2 : String) : List String :=
  if i = 0 then ["-1", r1, "-2", r2]
  else ["--pe" ++ toString i ++ "-1", r1, "--pe" ++ toString i ++ "-2", r2]

/-- The paired-read portion of the spades command, mirroring the
enumerate(zip(r1_reads, r2_reads)) loop starting at index i. -/
def pairedArgsAux : Nat → List (String × String) → List String
  | _, [] => []
  | i, (a, b) :: rest => peFlags i a b ++ pairedArgsAux (i + 1) rest

/-- Optional -m flag for the memory limit. -/
def memArgs : Option Int → List String
  | some m => ["-m", toString m]
  | none => []

/-- The full spades.py argument vector constructed by run_metaspades
(lines 92 to 119 of the source): fixed head, -o, -t, optional -m, -k, the
paired reads, then each single and merged file appended individually. -/
def metaspades_cmd (output_dir : String) (threads : Int) (memory : Option Int)
    (kstr : String) (r1 r2 singles merged : List String) : List String :=
  ["spades.py", "--meta", "-o", output_dir, "-t", toString threads]
    ++ memArgs memory ++ ["-k", kstr]
    ++ pairedArgsAux 0 (r1.zip r2)
    ++ (singles.map (fun s => ["-s", s])).flatten
    ++ (merged.map (fun x => ["--merged", x])).flatten

/-- run_metaspades: presence and pairing validation in source order, k-mer
validation, then directory creation, command construction (with its
interleaved log lines) and the subprocess.run call whose result is the
res parameter. -/
def run_metaspades (r1 r2 singles merged : List String)
    (output_dir assembly_name : String) (threads : Option Int)
    (memory_limit_gb : Option Int) (kmers : String) (res : ExecResult) : Outcome :=
  if r1 = [] ∨ r2 = [] then .exited [.log spadesPairedErrMsg] 1
  else if r1.length ≠ r2.length then .exited [.log spadesLenErrMsg] 1
  else if output_dir = "" then .exited [.log spadesOutErrMsg] 1
  else if assembly_name = "" then .exited [.log spadesAsmErrMsg] 1
  else
    match threads with
    | none => .exited [.log spadesThreadsErrMsg] 1
    | some t =>
      match validate_kmers kmers with
      | .error f => .exited [.log (kmerErrLogMsg f.offending)] f.exitCode
      | .ok kstr =>
        let pre :=
          [Effect.log (usingKmersMsg kstr), Effect.makedirs output_dir,
           Effect.log (spadesOutMsg output_dir)]
          ++ (match memory_limit_gb with
              | some mg => [Effect.log (memLimitMsg mg)]
              | none => [])
        let cmd := metaspades_cmd output_dir t memory_limit_gb kstr r1 r2 singles merged
        finishExec (pre ++ [Effect.log (spadesExecMsg cmd)]) cmd
          spadesSuccessMsg spadesFailMsg spadesNotFoundMsg res

/-! ### Index-build wrapper: index_MGassembly_by_bowtie.py -/

def idxAsmErrMsg : String := "Error: Assembly input is mandatory."

def idxNameErrMsg : String := "Error: Output index name is mandatory."

def idxOutErrMsg : String := "Error: Output location is mandatory."

def idxOutMsg (d : String) : String := "Index output will be written to: " ++ d

def idxExecMsg (cmd : List String) : String :=
  "Executing indexing command: " ++ String.intercalate " " cmd

def idxSuccessMsg : String := "Indexing execution completed successfully."

def idxFailMsg (rc : Int) : String :=
  "Indexing command failed with exit code " ++ toString rc

def bowtieBuildNotFoundMsg : String :=
  "Error: bowtie2-build command not found. Ensure bowtie2 is installed and in your PATH within the container."

/-- Output path of the index build (line 44 of the source): plain string
concatenation of the output directory, the index name and the suffix, with
no path separator inserted. -/
def indexOutputPath (output_dir output_index_name : String) : String :=
  output_dir ++ output_index_name ++ "_bowtie2_index"

/-- The bowtie2-build argument vector (lines 47 to 49 of the source). -/
def bowtie2_build_cmd (input_assembly output_index_name output_dir : String) :
    List String :=
  ["bowtie2-build"] ++ [input_assembly]
    ++ [indexOutputPath output_dir output_index_name]

/-- run_bowtie_indexing: presence validation in source order, directory
creation, command construction and the subprocess.run call. -/
def run_bowtie_indexing (input_assembly output_index_name output_dir : String)
    (res : ExecResult) : Outcome :=
  if input_assembly = "" then .exited [.log idxAsmErrMsg] 1
  else if output_index_name = "" then .exited [.log idxNameErrMsg] 1
  else if output_dir = "" then .exited [.log idxOutErrMsg] 1
  else
    let cmd := bowtie2_build_cmd input_assembly output_index_name output_dir
    finishExec
      [Effect.makedirs output_dir, Effect.log (idxOutMsg output_dir),
       Effect.log (idxExecMsg cmd)] cmd
      idxSuccessMsg idxFailMsg bowtieBuildNotFoundMsg res

/-! ### Read-mapping wrapper: mapReads_MGassembly_by_bowtie.py -/

def mapIdxErrMsg : String := "Error: Index location is mandatory."

def mapPairedErrMsg : String := "Error: Paired-end R1 and R2 reads are mandatory."

def mapLenErrMsg : String := "Error: Number of R1 files must match the number of R2 files."

def mapOutErrMsg : String := "Error: Output directory is mandatory."

def mapAsmErrMsg : String := "Error: Assembly name is mandatory."

def mapMgErrMsg : String := "Error: Metagenome name is mandatory."

def mapThreadsErrMsg : String := "Error: Number of threads is mandatory."

def mapOutMsg (d : String) : String := "Mapping output will be written to: " ++ d

def mapExecMsg (cmd : List String) : String :=
  "Executing Bowtie2 mapping command: " ++ String.intercalate " " cmd

def bowtieSuccessMsg : String := "Bowtie2 execution completed successfully."

def bowtieFailMsg (rc : Int) : String :=
  "Bowtie2 command failed with exit code " ++ toString rc

def bowtieNotFoundMsg : String :=
  "Error: bowtie2 command not found. Ensure Bowtie2 is installed and in your PATH within the container."

/-- The index path the mapping wrapper targets (source line 67):
os.path.join of the index folder with the assembly name plus the
_bowtie2_index suffix. -/
def mappingIndexPath (bowtie2_index_folder assembly_name : String) : String :=
  osPathJoin bowtie2_index_folder (assembly_name ++ "_bowtie2_index")

/-- Alignment output file of the mapping wrapper (source line 86). -/
def mappingOutputFile (output_dir assembly_name metagenome_name : String) : String :=
  osPathJoin output_dir
    (metagenome_name ++ "_to_" ++ assembly_name ++ "_bowtie2.sam")

/-- The bowtie2 argument vector constructed by run_mapping (source lines 70
to 87): -x with the index path, the R1 and R2 lists each joined into one
comma-separated token, -U for the joined single reads when that token is
nonempty, then -p and -S. -/
def run_mapping_cmd (idxPath : String) (r1 r2 singles : List String)
    (threads : Int) (outFile : String) : List String :=
  let r1s := String.intercalate "," r1
  let r2s := String.intercalate "," r2
  let ss := if singles = [] then "" else String.intercalate "," singles
  ["bowtie2", "-x", idxPath, "-1", r1s, "-2", r2s]
    ++ (if ss ≠ "" then ["-U", ss] else [])
    ++ ["-p", toString threads, "-S", outFile]

/-- run_mapping: presence and pairing validation in source order, directory
creation, command construction and the subprocess.run call. -/
def run_mapping (bowtie2_index_folder : String) (r1 r2 singles : List String)
    (output_dir assembly_name metagenome_name : String) (threads : Option Int)
    (res : ExecResult) : Outcome :=
  if bowtie2_index_folder = "" then .exited [.log mapIdxErrMsg] 1
  else if r1 = [] ∨ r2 = [] then .exited [.log mapPairedErrMsg] 1
  else if r1.length ≠ r2.length then .exited [.log mapLenErrMsg] 1
  else if output_dir = "" then .exited [.log mapOutErrMsg] 1
  else if assembly_name = "" then .exited [.log mapAsmErrMsg] 1
  else if metagenome_name = "" then .exited [.log mapMgErrMsg] 1
  else
    match threads with
    | none => .exited [.log mapThreadsErrMsg] 1
    | some t =>
      let cmd := run_mapping_cmd (mappingIndexPath bowtie2_index_folder assembly_name)
        r1 r2 singles t (mappingOutputFile output_dir assembly_name metagenome_name)
      finishExec
        [Effect.makedirs output_dir, Effect.log (mapOutMsg output_dir),
         Effect.log (mapExecMsg cmd)] cmd
        bowtieSuccessMsg bowtieFailMsg bowtieNotFoundMsg res

/-! ### Post-alignment samtools steps (mapping wrapper)

The three functions below construct a samtools command and log it, but none
of them contains a subprocess call, so no external process is launched and
no outcome is checked.  In addition, samtools_sort references the bare name
threads when building its command; no assignment to a global named threads
exists anywhere in the module (the entry point only ever uses the attribute
args.threads), so evaluating str(threads) there raises a NameError before
the log line is reached.  The raised outcome models that uncaught
exception. -/

def samViewOutErrMsg : String := "Error: Output directory is mandatory for samtools conversion."

def samViewAsmErrMsg : String := "Error: Assembly name is mandatory for samtools conversion."

def samViewMgErrMsg : String := "Error: Metagenome name is mandatory for samtools conversion."

def samSortOutErrMsg : String := "Error: Output directory is mandatory for samtools sorting."

def samSortAsmErrMsg : String := "Error: Assembly name is mandatory for samtools sorting."

def samSortMgErrMsg : String := "Error: Metagenome name is mandatory for samtools sorting."

def samIdxOutErrMsg : String := "Error: Output directory is mandatory for samtools indexing."

def samIdxAsmErrMsg : String := "Error: Assembly name is mandatory for samtools indexing."

def samIdxMgErrMsg : String := "Error: Metagenome name is mandatory for samtools indexing."

/-- The unsorted BAM path used by samtools_view and samtools_sort. -/
def unsortedBamFile (output_dir assembly_name metagenome_name : String) : String :=
  osPathJoin output_dir
    (metagenome_name ++ "_to_" ++ assembly_name ++ "_bowtie2_unsorted.bam")

/-- The sorted BAM path used by samtools_sort and samtools_index. -/
def sortedBamFile (output_dir assembly_name metagenome_name : String) : String :=
  osPathJoin output_dir
    (metagenome_name ++ "_to_" ++ assembly_name ++ "_bowtie2.bam")

def samViewLogMsg (sam bam : String) (cmd : List String) : String :=
  "Converting SAM file " ++ sam ++ " to BAM format at " ++ bam ++ ": "
    ++ String.intercalate " " cmd

def samIdxLogMsg (bam : String) (cmd : List String) : String :=
  "Indexing BAM file " ++ bam ++ ": " ++ String.intercalate " " cmd

/-- Message of the NameError raised in samtools_sort by the reference to
the unbound global name threads. -/
def nameErrorThreadsMsg : String := "NameError: name threads is not defined"

/-- samtools_view: presence validation, then it builds the samtools view
command and only logs it; the function contains no subprocess call. -/
def samtools_view (output_dir assembly_name metagenome_name : String) : Outcome :=
  if output_dir = "" then .exited [.log samViewOutErrMsg] 1
  else if assembly_name = "" then .exited [.log samViewAsmErrMsg] 1
  else if metagenome_name = "" then .exited [.log samViewMgErrMsg] 1
  else
    let sam := mappingOutputFile output_dir assembly_name metagenome_name
    let bam := unsortedBamFile output_dir assembly_name metagenome_name
    let cmd := ["samtools", "view", "-b", sam, "-o", bam]
    .normal [.log (samViewLogMsg sam bam cmd)]

/-- samtools_sort: presence validation, then while extending the command
with the thread count it evaluates str(threads) where threads is an unbound
global name, raising a NameError before anything is logged or launched. -/
def samtools_sort (output_dir assembly_name metagenome_name : String) : Outcome :=
  if output_dir = "" then .exited [.log samSortOutErrMsg] 1
  else if assembly_name = "" then .exited [.log samSortAsmErrMsg] 1
  else if metagenome_name = "" then .exited [.log samSortMgErrMsg] 1
  else .raised [] nameErrorThreadsMsg

/-- samtools_index: presence validation, then it builds the samtools index
command and only logs it; the function contains no subprocess call. -/
def samtools_index (output_dir assembly_name metagenome_name : String) : Outcome :=
  if output_dir = "" then .exited [.log samIdxOutErrMsg] 1
  else if assembly_name = "" then .exited [.log samIdxAsmErrMsg] 1
  else if metagenome_name = "" then .exited [.log samIdxMgErrMsg] 1
  else
    let bam := sortedBamFile output_dir assembly_name metagenome_name
    let cmd := ["samtools", "index", bam]
    .normal [.log (samIdxLogMsg bam cmd)]

/-! ### Helper lemmas -/

/-- String append acts as list append on the underlying character data. -/
theorem string_data_append (a b : String) : (a ++ b).data = a.data ++ b.data := rfl

/-- A string of the form head ++ tail determines its first characters:
helper for telling fixed log messages apart from the generic exception
message, which is a fixed head followed by an arbitrary exception text. -/
theorem ne_of_take_ne (s p : String)
    (h : s.data.take p.data.length ≠ p.data) (e : String) : s ≠ p ++ e := by
  intro hcon
  apply h
  have h2 := congrArg String.data hcon
  rw [string_data_append] at h2
  rw [h2]
  exact List.take_left p.data e.data

/-- If every token is acceptable, the k-mer loop returns the parsed
values. -/
theorem validateKmerList_ok_of_all (l : List String) (h : l.all kmerTokOk = true) :
    validateKmerList l = Except.ok (l.filterMap pyInt) := by
  induction l with
  | nil => rfl
  | cons k rest ih =>
    rw [List.all_cons, Bool.and_eq_true] at h
    obtain ⟨hk, hrest⟩ := h
    cases hp : pyInt k with
    | none => simp [kmerTokOk, hp] at hk
    | some kv =>
      simp only [kmerTokOk, hp, Bool.and_eq_true, decide_eq_true_eq, bne_iff_ne,
        ne_eq] at hk
      obtain ⟨hle, hodd⟩ := hk
      simp [validateKmerList, hp, hle, hodd, ih hrest, List.filterMap_cons]

/-- If some token is unacceptable, the k-mer loop fails with exit code 1 at
an unacceptable token of the list. -/
theorem validateKmerList_err_of_bad (l : List String) (h : l.all kmerTokOk = false) :
    ∃ bad, bad ∈ l ∧ kmerTokOk bad = false ∧
      validateKmerList l = Except.error ⟨bad, 1⟩ := by
  induction l with
  | nil => simp at h
  | cons k rest ih =>
    rw [List.all_cons] at h
    cases hk : kmerTokOk k with
    | false =>
      refine ⟨k, List.mem_cons_self k rest, hk, ?_⟩
      cases hp : pyInt k with
      | none => simp [validateKmerList, hp]
      | some kv =>
        simp only [kmerTokOk, hp] at hk
        by_cases hle : kv ≤ 150
        · have hodd : kv % 2 = 0 := by
            rw [decide_eq_true hle, Bool.true_and, bne_eq_false_iff_eq] at hk
            exact hk
          simp [validateKmerList, hp, hle, hodd]
        · simp [validateKmerList, hp, hle]
    | true =>
      rw [hk, Bool.true_and] at h
      obtain ⟨bad, hmem, hbad, heq⟩ := ih h
      refine ⟨bad, List.mem_cons_of_mem k hmem, hbad, ?_⟩
      cases hp : pyInt k with
      | none => simp [kmerTokOk, hp] at hk
      | some kv =>
        simp only [kmerTokOk, hp, Bool.and_eq_true, decide_eq_true_eq,
          bne_iff_ne, ne_eq] at hk
        obtain ⟨hle, hodd⟩ := hk
        simp [validateKmerList, hp, hle, hodd, heq]

/-- C1.  For every comma-separated k-mer token string, validate_kmers
accepts exactly the strings all of whose tokens parse as odd integers at
most 150 (no lower bound: acceptability is precisely parsing to some k with
k at most 150 and k odd), returning the comma-joined str() images of the
parsed values; and on a string containing an even integer, an integer above
150, or a non-integer token, it reports an offending token and terminates
the process with exit status 1, which is nonzero. -/
theorem kmer_validator_spec (s : String) (hne : s ≠ "") :
    ((pySplitComma s).all kmerTokOk = true →
      validate_kmers s = Except.ok
        (String.intercalate "," (((pySplitComma s).filterMap pyInt).map toString)))
    ∧ ((pySplitComma s).all kmerTokOk = false →
      ∃ bad, bad ∈ pySplitComma s ∧ kmerTokOk bad = false ∧
        validate_kmers s = Except.error ⟨bad, 1⟩ ∧ (1 : Int) ≠ 0)
    ∧ (∀ t, kmerTokOk t = true ↔ ∃ k, pyInt t = some k ∧ k ≤ 150 ∧ k % 2 ≠ 0) := by
  refine ⟨?_, ?_, ?_⟩
  · intro h
    rw [validate_kmers, if_neg hne, validateKmerList_ok_of_all _ h]
  · intro h
    obtain ⟨bad, hmem, hbad, heq⟩ := validateKmerList_err_of_bad _ h
    exact ⟨bad, hmem, hbad, by rw [validate_kmers, if_neg hne, heq], by decide⟩
  · intro t
    cases hp : pyInt t with
    | none => simp [kmerTokOk, hp]
    | some kv => simp [kmerTokOk, hp]

/-- Witness for C1 at the concrete input "21,-3": both tokens are odd and
at most 150 (the second is negative, showing the absence of a lower
bound), so the validator accepts and returns the normalized join. -/
theorem kmer_validator_spec_witness :
    validate_kmers "21,-3" = Except.ok "21,-3" := by
  have h := (kmer_validator_spec "21,-3" (by decide)).1 (by decide)
  rw [h]
  have he : String.intercalate ","
      (((pySplitComma "21,-3").filterMap pyInt).map toString) = "21,-3" := by decide
  rw [he]

/-- C3.  samtools_sort references the thread-count name threads, which is
neither a parameter nor defined in the function nor bound at module scope,
so for every call with all three of output directory, assembly name and
metagenome name present, evaluating the command construction reaches an
unbound-variable NameError (before logging or launching anything) rather
than completing normally. -/
theorem samtools_sort_raises_name_error (d a m : String)
    (hd : d ≠ "") (ha : a ≠ "") (hm : m ≠ "") :
    samtools_sort d a m = Outcome.raised [] nameErrorThreadsMsg := by
  simp [samtools_sort, hd, ha, hm]

/-- Witness for C3 at concrete arguments. -/
theorem samtools_sort_raises_name_error_witness :
    samtools_sort "outdir" "asm" "mg" = Outcome.raised [] nameErrorThreadsMsg :=
  samtools_sort_raises_name_error "outdir" "asm" "mg"
    (by decide) (by decide) (by decide)

/-- Counterexample for C2 as stated: at the concrete valid arguments
outdir, asm, mg, the sort step does not log its command string at all (its
effect list is empty, because the NameError is raised while the command is
still being built), so it is false that each of the three post-alignment
functions only logs its constructed command string. -/
theorem samtools_sort_logs_nothing :
    samtools_sort "outdir" "asm" "mg" = Outcome.raised [] nameErrorThreadsMsg ∧
    outcomeEffects (samtools_sort "outdir" "asm" "mg") = [] := by
  constructor <;> rfl

/-- C2 amended.  For every valid combination of output directory, assembly
name and metagenome name: samtools_view and samtools_index each construct
their samtools command and perform exactly one effect, logging the command
string, and return normally without checking any outcome; samtools_sort
also launches no external process, but raises a NameError during command
construction and logs nothing; none of the three launches an external
process. -/
theorem postalign_steps_spec (d a m : String)
    (hd : d ≠ "") (ha : a ≠ "") (hm : m ≠ "") :
    (samtools_view d a m = Outcome.normal
      [Effect.log (samViewLogMsg
        (mappingOutputFile d a m) (unsortedBamFile d a m)
        ["samtools", "view", "-b", mappingOutputFile d a m, "-o",
         unsortedBamFile d a m])])
    ∧ (samtools_index d a m = Outcome.normal
      [Effect.log (samIdxLogMsg (sortedBamFile d a m)
        ["samtools", "index", sortedBamFile d a m])])
    ∧ samtools_sort d a m = Outcome.raised [] nameErrorThreadsMsg
    ∧ launchesNoProcess (samtools_view d a m) = true
    ∧ launchesNoProcess (samtools_sort d a m) = true
    ∧ launchesNoProcess (samtools_index d a m) = true := by
  refine ⟨?_, ?_, ?_, ?_, ?_, ?_⟩ <;>
    simp [samtools_view, samtools_index, samtools_sort, hd, ha, hm,
      launchesNoProcess, outcomeEffects, effectIsExec]

/-- Witness for the amended C2 at concrete arguments. -/
theorem postalign_steps_spec_witness :
    launchesNoProcess (samtools_view "outdir" "asm" "mg") = true ∧
    launchesNoProcess (samtools_sort "outdir" "asm" "mg") = true ∧
    launchesNoProcess (samtools_index "outdir" "asm" "mg") = true := by
  have h := postalign_steps_spec "outdir" "asm" "mg"
    (by decide) (by decide) (by decide)
  exact ⟨h.2.2.2.1, h.2.2.2.2.1, h.2.2.2.2.2⟩

/-- Counterexample for C4 as stated: for input assembly asm.fna, index
name sampleA and output directory /idx (no trailing separator), the
index-build wrapper constructs its bowtie2-build command with output index
path /idxsampleA_bowtie2_index, which is not the path
/idx/sampleA_bowtie2_index claimed (the name is glued onto the directory
string, not placed under it as a path component). -/
theorem bowtie_indexing_path_counterexample :
    bowtie2_build_cmd "asm.fna" "sampleA" "/idx" =
      ["bowtie2-build", "asm.fna", "/idxsampleA_bowtie2_index"] ∧
    indexOutputPath "/idx" "sampleA" ≠ "/idx/sampleA_bowtie2_index" := by
  constructor <;> decide

/-- C4 amended.  For every input assembly path, output index name and
output directory, the index-build wrapper constructs its bowtie2-build
command with output index path equal to the plain string concatenation of
the directory, the name and the suffix _bowtie2_index, with no path
separator inserted; the name therefore lands under the directory as a path
component only when the directory string already ends with a separator. -/
theorem bowtie_indexing_path_concat (i n d : String)
    (hi : i ≠ "") (hn : n ≠ "") (hd : d ≠ "") (res : ExecResult) :
    (∃ tail, outcomeEffects (run_bowtie_indexing i n d res) =
      Effect.makedirs d :: Effect.log (idxOutMsg d) ::
        Effect.log (idxExecMsg ["bowtie2-build", i, d ++ n ++ "_bowtie2_index"])
        :: tail)
    ∧ bowtie2_build_cmd i n d = ["bowtie2-build", i, d ++ n ++ "_bowtie2_index"] := by
  constructor
  · cases res <;>
      simp [run_bowtie_indexing, hi, hn, hd, finishExec, outcomeEffects,
        bowtie2_build_cmd, indexOutputPath]
  · simp [bowtie2_build_cmd, indexOutputPath]

/-- Witness for the amended C4 at concrete arguments. -/
theorem bowtie_indexing_path_concat_witness :
    bowtie2_build_cmd "asm.fna" "sampleA" "/idx/" =
      ["bowtie2-build", "asm.fna", "/idx/" ++ "sampleA" ++ "_bowtie2_index"] :=
  (bowtie_indexing_path_concat "asm.fna" "sampleA" "/idx/"
    (by decide) (by decide) (by decide) ExecResult.success).2

/-- C5.  For every pair of non-empty R1 and R2 read-file lists of unequal
length, both run_metaspades and run_mapping log a single error line and
terminate with exit status 1 while having performed no other effect, in
particular before constructing or launching any external process
(run_mapping reports the pairing mismatch itself when its index folder is
present, and its equally fatal missing-index error otherwise). -/
theorem mismatched_pairs_exit_one
    (r1 r2 singles merged smap : List String)
    (d a folder dmap amap mg : String) (t tmap : Option Int)
    (mem : Option Int) (k : String) (res resm : ExecResult)
    (h1 : r1 ≠ []) (h2 : r2 ≠ []) (hlen : r1.length ≠ r2.length) :
    run_metaspades r1 r2 singles merged d a t mem k res =
      Outcome.exited [Effect.log spadesLenErrMsg] 1
    ∧ (∃ msg, run_mapping folder r1 r2 smap dmap amap mg tmap resm =
        Outcome.exited [Effect.log msg] 1)
    ∧ launchesNoProcess (run_metaspades r1 r2 singles merged d a t mem k res) = true
    ∧ launchesNoProcess (run_mapping folder r1 r2 smap dmap amap mg tmap resm) = true := by
  have hms : run_metaspades r1 r2 singles merged d a t mem k res =
      Outcome.exited [Effect.log spadesLenErrMsg] 1 := by
    simp [run_metaspades, h1, h2, hlen]
  by_cases hf : folder = ""
  · have hmp : run_mapping folder r1 r2 smap dmap amap mg tmap resm =
        Outcome.exited [Effect.log mapIdxErrMsg] 1 := by
      simp [run_mapping, hf]
    refine ⟨hms, ⟨mapIdxErrMsg, hmp⟩, ?_, ?_⟩ <;>
      simp [hms, hmp, launchesNoProcess, outcomeEffects, effectIsExec]
  · have hmp : run_mapping folder r1 r2 smap dmap amap mg tmap resm =
        Outcome.exited [Effect.log mapLenErrMsg] 1 := by
      simp [run_mapping, hf, h1, h2, hlen]
    refine ⟨hms, ⟨mapLenErrMsg, hmp⟩, ?_, ?_⟩ <;>
      simp [hms, hmp, launchesNoProcess, outcomeEffects, effectIsExec]

/-- Witness for C5 at concrete arguments: one R1 file against two R2
files. -/
theorem mismatched_pairs_exit_one_witness :
    run_metaspades ["a_R1.fq"] ["a_R2.fq", "b_R2.fq"] [] [] "out" "asm"
        (some 4) none "21" ExecResult.success =
      Outcome.exited [Effect.log spadesLenErrMsg] 1 :=
  (mismatched_pairs_exit_one ["a_R1.fq"] ["a_R2.fq", "b_R2.fq"] [] [] []
    "out" "asm" "/idx" "out" "asm" "mg" (some 4) (some 4) none "21"
    ExecResult.success ExecResult.success
    (by decide) (by decide) (by decide)).1

/-- The flag block of the pair at position i of the enumerate loop is a
contiguous segment of the paired-read arguments built from start index j. -/
theorem peFlags_infix_pairedArgsAux (pairs : List (String × String)) :
    ∀ (j i : Nat) (h : i < pairs.length),
      List.IsInfix
        (peFlags (j + i) (pairs.get ⟨i, h⟩).1 (pairs.get ⟨i, h⟩).2)
        (pairedArgsAux j pairs) := by
  induction pairs with
  | nil => intro j i h; simp at h
  | cons p rest ih =>
    intro j i h
    cases i with
    | zero =>
      refine ⟨[], pairedArgsAux (j + 1) rest, ?_⟩
      simp [pairedArgsAux]
    | succ i2 =>
      have hlt : i2 < rest.length := by simpa using h
      have hrec := ih (j + 1) i2 hlt
      have hidx : j + 1 + i2 = j + (i2 + 1) := by omega
      rw [hidx] at hrec
      have hsuf : List.IsInfix (pairedArgsAux (j + 1) rest)
          (pairedArgsAux j (p :: rest)) := by
        refine ⟨peFlags j p.1 p.2, [], ?_⟩
        simp [pairedArgsAux]
      exact hrec.trans hsuf

/-- C6.  In the constructed spades command, every pair i of the zipped
R1/R2 lists appears as a contiguous flag block, where the first pair uses
-1 and -2 and pair i for i at least 1 uses --pe(i)-1 and --pe(i)-2; in
particular with r1 = [a_R1.fq] and r2 = [a_R2.fq] the command contains the
segment -1 a_R1.fq -2 a_R2.fq, and a second pair adds the segment
--pe1-1 b_R1.fq --pe1-2 b_R2.fq. -/
theorem spades_paired_read_flags (d k : String) (t : Int) (mem : Option Int)
    (r1 r2 singles merged : List String) (i : Nat)
    (h : i < (r1.zip r2).length) :
    List.IsInfix
      (peFlags i ((r1.zip r2).get ⟨i, h⟩).1 ((r1.zip r2).get ⟨i, h⟩).2)
      (metaspades_cmd d t mem k r1 r2 singles merged)
    ∧ (∀ x y, peFlags 0 x y = ["-1", x, "-2", y])
    ∧ (∀ j x y, peFlags (j + 1) x y =
        ["--pe" ++ toString (j + 1) ++ "-1", x,
         "--pe" ++ toString (j + 1) ++ "-2", y])
    ∧ List.IsInfix ["-1", "a_R1.fq", "-2", "a_R2.fq"]
        (metaspades_cmd d t mem k ["a_R1.fq"] ["a_R2.fq"] [] [])
    ∧ List.IsInfix ["--pe1-1", "b_R1.fq", "--pe1-2", "b_R2.fq"]
        (metaspades_cmd d t mem k ["a_R1.fq", "b_R1.fq"]
          ["a_R2.fq", "b_R2.fq"] [] []) := by
  have hseg : ∀ (rr1 rr2 ss mm : List String),
      List.IsInfix (pairedArgsAux 0 (rr1.zip rr2))
        (metaspades_cmd d t mem k rr1 rr2 ss mm) := by
    intro rr1 rr2 ss mm
    refine ⟨["spades.py", "--meta", "-o", d, "-t", toString t]
      ++ memArgs mem ++ ["-k", k],
      (ss.map (fun s => ["-s", s])).flatten
        ++ (mm.map (fun x => ["--merged", x])).flatten, ?_⟩
    simp [metaspades_cmd]
  refine ⟨?_, ?_, ?_, ?_, ?_⟩
  · have hin := peFlags_infix_pairedArgsAux (r1.zip r2) 0 i h
    rw [Nat.zero_add] at hin
    exact hin.trans (hseg r1 r2 singles merged)
  · intro x y; simp [peFlags]
  · intro j x y; simp [peFlags]
  · have : pairedArgsAux 0 ((["a_R1.fq"].zip ["a_R2.fq"])) =
        ["-1", "a_R1.fq", "-2", "a_R2.fq"] := by decide
    have hs := hseg ["a_R1.fq"] ["a_R2.fq"] [] []
    rw [this] at hs
    exact hs
  · have hblock : List.IsInfix ["--pe1-1", "b_R1.fq", "--pe1-2", "b_R2.fq"]
        (pairedArgsAux 0 (["a_R1.fq", "b_R1.fq"].zip ["a_R2.fq", "b_R2.fq"])) := by
      refine ⟨["-1", "a_R1.fq", "-2", "a_R2.fq"], [], ?_⟩
      decide
    exact hblock.trans (hseg ["a_R1.fq", "b_R1.fq"] ["a_R2.fq", "b_R2.fq"] [] [])

/-- Witness for C6 at concrete arguments: the one-pair command contains the
first-pair flag segment. -/
theorem spades_paired_read_flags_witness :
    List.IsInfix ["-1", "a_R1.fq", "-2", "a_R2.fq"]
      (metaspades_cmd "out" 4 none "21" ["a_R1.fq"] ["a_R2.fq"] [] []) :=
  (spades_paired_read_flags "out" "21" 4 none ["a_R1.fq"] ["a_R2.fq"] [] []
    0 (by decide)).2.2.2.1

/-- C7.  For every set of arguments accepted by the mapping wrapper, the
constructed bowtie2 command targets the index path obtained by joining the
index folder with the assembly name plus the _bowtie2_index suffix (that
path is the -x argument, in position 2 of the command); in particular,
with index folder /idx/ and assembly name sampleA the targeted index path
is /idx/sampleA_bowtie2_index. -/
theorem mapping_index_path_spec (folder : String) (r1 r2 singles : List String)
    (d a mg : String) (t : Int) (res : ExecResult)
    (hf : folder ≠ "") (h1 : r1 ≠ []) (h2 : r2 ≠ [])
    (hlen : r1.length = r2.length) (hd : d ≠ "") (ha : a ≠ "") (hmg : mg ≠ "") :
    (∃ tail, outcomeEffects
        (run_mapping folder r1 r2 singles d a mg (some t) res) =
      Effect.makedirs d :: Effect.log (mapOutMsg d) ::
        Effect.log (mapExecMsg (run_mapping_cmd (mappingIndexPath folder a)
          r1 r2 singles t (mappingOutputFile d a mg))) :: tail)
    ∧ (∀ p rr1 rr2 ss tt oo,
        (run_mapping_cmd p rr1 rr2 ss tt oo).take 3 = ["bowtie2", "-x", p])
    ∧ mappingIndexPath "/idx/" "sampleA" = "/idx/sampleA_bowtie2_index" := by
  refine ⟨?_, ?_, ?_⟩
  · cases res <;>
      simp [run_mapping, hf, h1, h2, hlen, hd, ha, hmg, finishExec,
        outcomeEffects]
  · intro p rr1 rr2 ss tt oo
    simp [run_mapping_cmd, List.take]
  · decide

/-- Witness for C7 at concrete arguments. -/
theorem mapping_index_path_spec_witness :
    mappingIndexPath "/idx/" "sampleA" = "/idx/sampleA_bowtie2_index" :=
  (mapping_index_path_spec "/idx/" ["a_R1.fq"] ["a_R2.fq"] [] "out" "sampleA"
    "mg" 4 ExecResult.success (by decide) (by decide) (by decide) (by decide)
    (by decide) (by decide) (by decide)).2.2

/-- C8.  For every nonzero exit code rc of the invoked external tool, both
run_metaspades and run_mapping log the exit code (in the failure message)
and the failing command, and then terminate with exit status rc, the same
code the tool returned. -/
theorem nonzero_exit_propagated
    (r1 r2 singles merged smap : List String) (d a : String) (t tmap : Int)
    (mem : Option Int) (k kstr : String) (folder dmap mg : String) (rc : Int)
    (hrc : rc ≠ 0)
    (h1 : r1 ≠ []) (h2 : r2 ≠ []) (hlen : r1.length = r2.length)
    (hd : d ≠ "") (ha : a ≠ "") (hk : validate_kmers k = Except.ok kstr)
    (hf : folder ≠ "") (hdm : dmap ≠ "") (hmg : mg ≠ "") :
    (∃ effs cmd, run_metaspades r1 r2 singles merged d a (some t) mem k
        (ExecResult.failure rc) = Outcome.exited effs rc
      ∧ Effect.log (spadesFailMsg rc) ∈ effs ∧ Effect.logCmd cmd ∈ effs
      ∧ Effect.exec cmd ∈ effs)
    ∧ (∃ effs cmd, run_mapping folder r1 r2 smap dmap a mg (some tmap)
        (ExecResult.failure rc) = Outcome.exited effs rc
      ∧ Effect.log (bowtieFailMsg rc) ∈ effs ∧ Effect.logCmd cmd ∈ effs
      ∧ Effect.exec cmd ∈ effs) := by
  constructor
  · simp only [run_metaspades, h1, h2, hlen, hd, ha, hk, finishExec, ne_eq,
      not_false_eq_true, if_neg, if_false, ite_false, or_self]
    refine ⟨_, metaspades_cmd d t mem kstr r1 r2 singles merged, rfl, ?_, ?_, ?_⟩ <;>
      simp
  · simp only [run_mapping, hf, h1, h2, hlen, hdm, ha, hmg, finishExec, ne_eq,
      not_false_eq_true, if_neg, if_false, ite_false, or_self]
    refine ⟨_, run_mapping_cmd (mappingIndexPath folder a) r1 r2 smap tmap
      (mappingOutputFile dmap a mg), rfl, ?_, ?_, ?_⟩ <;>
      simp

/-- Witness for C8 at concrete arguments with external exit code 2. -/
theorem nonzero_exit_propagated_witness :
    ∃ effs, run_metaspades ["a_R1.fq"] ["a_R2.fq"] [] [] "out" "asm" (some 4)
        none "" (ExecResult.failure 2) = Outcome.exited effs 2 ∧
      Effect.log (spadesFailMsg 2) ∈ effs := by
  obtain ⟨effs, cmd, hout, hlog, hcmd, hexec⟩ :=
    (nonzero_exit_propagated ["a_R1.fq"] ["a_R2.fq"] [] [] [] "out" "asm" 4 4
      none "" "" "/idx" "out" "mg" 2 (by decide) (by decide) (by decide) rfl
      (by decide) (by decide) rfl (by decide) (by decide) (by decide)).1
  exact ⟨effs, hout, hlog⟩

/-- C9.  When the external executable is absent from the PATH, both
run_metaspades and run_bowtie_indexing terminate with exit status 1 after
logging their specific tool-not-installed message, and this outcome is
distinguished from the generic unexpected-exception path, which logs the
exception generically (with a fixed generic head followed by the exception
text) and also exits 1: the two log messages always differ. -/
theorem tool_not_found_exits_one
    (r1 r2 singles merged : List String) (d a : String) (t : Int)
    (mem : Option Int) (k kstr : String) (idxI idxN idxD : String) (e : String)
    (h1 : r1 ≠ []) (h2 : r2 ≠ []) (hlen : r1.length = r2.length)
    (hd : d ≠ "") (ha : a ≠ "") (hk : validate_kmers k = Except.ok kstr)
    (hi : idxI ≠ "") (hn : idxN ≠ "") (hdd : idxD ≠ "") :
    (∃ effs, run_metaspades r1 r2 singles merged d a (some t) mem k
        ExecResult.notFound = Outcome.exited effs 1
      ∧ Effect.log spadesNotFoundMsg ∈ effs)
    ∧ (∃ effs, run_bowtie_indexing idxI idxN idxD ExecResult.notFound =
        Outcome.exited effs 1 ∧ Effect.log bowtieBuildNotFoundMsg ∈ effs)
    ∧ (∃ effs, run_metaspades r1 r2 singles merged d a (some t) mem k
        (ExecResult.otherError e) = Outcome.exited effs 1
      ∧ Effect.log (unexpectedErrorMsg e) ∈ effs)
    ∧ spadesNotFoundMsg ≠ unexpectedErrorMsg e
    ∧ bowtieBuildNotFoundMsg ≠ unexpectedErrorMsg e := by
  refine ⟨?_, ?_, ?_, ?_, ?_⟩
  · simp only [run_metaspades, h1, h2, hlen, hd, ha, hk, finishExec, ne_eq,
      not_false_eq_true, if_neg, if_false, ite_false, or_self]
    refine ⟨_, rfl, ?_⟩
    simp
  · simp only [run_bowtie_indexing, hi, hn, hdd, finishExec, ne_eq,
      not_false_eq_true, if_neg, if_false, ite_false]
    refine ⟨_, rfl, ?_⟩
    simp
  · simp only [run_metaspades, h1, h2, hlen, hd, ha, hk, finishExec, ne_eq,
      not_false_eq_true, if_neg, if_false, ite_false, or_self]
    refine ⟨_, rfl, ?_⟩
    simp
  · exact ne_of_take_ne _ _ (by decide) e
  · exact ne_of_take_ne _ _ (by decide) e

/-- Witness for C9 at concrete arguments. -/
theorem tool_not_found_exits_one_witness :
    ∃ effs, run_bowtie_indexing "asm.fna" "sampleA" "/idx/"
        ExecResult.notFound = Outcome.exited effs 1
      ∧ Effect.log bowtieBuildNotFoundMsg ∈ effs :=
  (tool_not_found_exits_one ["a_R1.fq"] ["a_R2.fq"] [] [] "out" "asm" 4 none
    "" "" "asm.fna" "sampleA" "/idx/" "boom" (by decide) (by decide) rfl
    (by decide) (by decide) rfl (by decide) (by decide) (by decide)).2.1

/-- C10.  For every two invocations of run_metaspades that differ only in
a present assembly name, the whole outcome, and with it the constructed
spades argument vector, is identical: the assembly name is validated for
presence (an empty name terminates with status 1 before any further
effect) but has no influence on the command or the output directory. -/
theorem assembly_name_no_influence
    (r1 r2 singles merged : List String) (d : String) (t mem : Option Int)
    (k : String) (res : ExecResult) (a1 a2 : String)
    (ha1 : a1 ≠ "") (ha2 : a2 ≠ "")
    (h1 : r1 ≠ []) (h2 : r2 ≠ []) (hlen : r1.length = r2.length) (hd : d ≠ "") :
    run_metaspades r1 r2 singles merged d a1 t mem k res =
      run_metaspades r1 r2 singles merged d a2 t mem k res
    ∧ run_metaspades r1 r2 singles merged d "" t mem k res =
      Outcome.exited [Effect.log spadesAsmErrMsg] 1 := by
  constructor
  · simp [run_metaspades, ha1, ha2]
  · simp [run_metaspades, h1, h2, hlen, hd]

/-- Witness for C10 at concrete arguments: two different assembly names,
identical outcome. -/
theorem assembly_name_no_influence_witness :
    run_metaspades ["a_R1.fq"] ["a_R2.fq"] [] [] "out" "asmA" (some 4) none
        "21" ExecResult.success =
      run_metaspades ["a_R1.fq"] ["a_R2.fq"] [] [] "out" "asmB" (some 4) none
        "21" ExecResult.success :=
  (assembly_name_no_influence ["a_R1.fq"] ["a_R2.fq"] [] [] "out" (some 4)
    none "21" ExecResult.success "asmA" "asmB" (by decide) (by decide)
    (by decide) (by decide) rfl (by decide)).1
